import Mathlib

set_option maxRecDepth 8000

/- Shallow embedding of the rust-semverx core.
   Sources: src/src/core/semver.rs (version model, error model) and
   src/resolver.rs (dependency graph, strategies, stress monitor).
   Conventions: Rust u32 is modelled as Nat (the string-to-u32 conversion
   checks the 2^32 bound where the source can fail on overflow); Rust f64
   stress levels and edge weights are modelled as ℚ, with the literal 1.5
   rendered as 3/2. Fallible Rust functions returning Result are modelled
   with Except. -/

/-- VerbNoun error taxonomy, semver.rs lines 13 to 20. -/
inductive VerbNounError where
  | ParsingError (msg : String)
  | ValidatingError (msg : String)
  | ComparingError (msg : String)
  | ResolvingError (msg : String)
  | HealingError (msg : String)
  | PanicError (msg : String)
deriving DecidableEq

/-- Observable error that bubbles up, semver.rs lines 24 to 29. -/
structure BubblingError where
  source : VerbNounError
  context : List String
  stress_level : ℚ
  can_recover : Bool
deriving DecidableEq

/-- The bubble operation, semver.rs lines 32 to 35: push the context string and
multiply the stress level by 1.5. The Rust method mutates in place; it is
modelled as returning the updated error value. -/
def BubblingError.bubble_up (e : BubblingError) (context : String) : BubblingError :=
  { e with context := e.context ++ [context], stress_level := e.stress_level * (3 / 2) }

/-- Deployment environment, semver.rs lines 116 to 121. -/
inductive Environment where
  | Dev
  | Test
  | Staging
  | Prod
deriving DecidableEq

/-- Life-cycle classifier, semver.rs lines 124 to 129. -/
inductive Classifier where
  | Stable
  | Legacy
  | Experimental
  | Deprecated
deriving DecidableEq

/-- SEI metadata block, semver.rs lines 101 to 113. -/
structure SEIMetadata where
  statement_contract : String
  statement_version : Nat
  expression_signature : String
  expression_complexity : Nat
  intent_hash : String
  intent_priority : Nat
deriving DecidableEq

/-- Default SEI metadata, semver.rs lines 358 to 369. -/
def SEIMetadata.default : SEIMetadata :=
  { statement_contract := ""
    statement_version := 0
    expression_signature := ""
    expression_complexity := 0
    intent_hash := ""
    intent_priority := 50 }

/-- Extended semantic version, semver.rs lines 83 to 98. -/
structure SemverX where
  major : Nat
  minor : Nat
  patch : Nat
  prerelease : Option String
  build : Option String
  environment : Option Environment
  classifier : Option Classifier
  intent : Option String
  sei : SEIMetadata
deriving DecidableEq

/-- Stress zones, semver.rs lines 134 to 139. -/
inductive StressZone where
  | Ok
  | Warning
  | Danger
  | Critical
deriving DecidableEq

/-- Per-component health record, semver.rs lines 142 to 147. -/
structure ComponentHealth where
  stress_level : ℚ
  zone : StressZone
  heal_attempts : Nat
  last_heal_timestamp : Nat
deriving DecidableEq

/-- Zone assessment, semver.rs lines 150 to 157. -/
def ComponentHealth.assess_zone (h : ComponentHealth) : ComponentHealth :=
  { h with zone :=
      if h.stress_level < 3 then .Ok
      else if h.stress_level < 6 then .Warning
      else if h.stress_level < 9 then .Danger
      else .Critical }

/-- Rust str::parse::<u32>: an optional leading plus sign, then one or more
ASCII digits, and the value must fit in a u32. -/
def parseU32 (s : String) : Option Nat :=
  let cs := s.toList
  let cs := match cs with
    | '+' :: rest => rest
    | other => other
  if cs.isEmpty then none
  else if cs.all Char.isDigit then
    let v := cs.foldl (fun acc c => acc * 10 + (c.toNat - 48)) 0
    if v < 2 ^ 32 then some v else none
  else none

/-- Split a character list at the first occurrence of c; returns the parts
before and after that occurrence (the occurrence itself dropped), or none. -/
def splitAtFirstAux (c : Char) : List Char → Option (List Char × List Char)
  | [] => none
  | x :: xs =>
    if x = c then some ([], xs)
    else match splitAtFirstAux c xs with
      | some (a, b) => some (x :: a, b)
      | none => none

/-- Rust str::find(c) followed by split_at: part before the first c and the
part after it, or none when c does not occur. -/
def splitAtFirst (c : Char) (s : String) : Option (String × String) :=
  match splitAtFirstAux c s.toList with
  | some (a, b) => some (a.asString, b.asString)
  | none => none

/- The Lean core string functions splitOn, split, trim, startsWith, drop and
toLower are compiled by well-founded recursion over byte positions, which the
kernel cannot evaluate; the list-based equivalents below are structurally
recursive renderings of the corresponding Rust str operations, so that every
definition in this file evaluates on concrete inputs. -/

/-- Strip sep as a prefix of l, or none when l does not start with sep. -/
def stripPrefixL (sep : List Char) (l : List Char) : Option (List Char) :=
  match sep, l with
  | [], rest => some rest
  | _ :: _, [] => none
  | s :: ss, x :: xs => if x = s then stripPrefixL ss xs else none

/-- Worker for substring splitting: scan l, cutting at every leftmost
non-overlapping occurrence of sep. The fuel starts above the list length and
the zero branch is unreachable for a nonempty sep. -/
def splitOnCharsAux (sep : List Char) : Nat → List Char → List Char → List (List Char)
  | 0, l, cur => [cur.reverse ++ l]
  | _ + 1, [], cur => [cur.reverse]
  | fuel + 1, x :: xs, cur =>
    match stripPrefixL sep (x :: xs) with
    | some rest => cur.reverse :: splitOnCharsAux sep fuel rest []
    | none => splitOnCharsAux sep fuel xs (x :: cur)

/-- Rust str::split with a substring pattern (also covering the single-dot
split of parse): greedy leftmost matching, empty pieces kept. -/
def splitOnStr (s sep : String) : List String :=
  if sep.toList.isEmpty then [s]
  else (splitOnCharsAux sep.toList (s.toList.length + 1) s.toList []).map List.asString

/-- Split at every character satisfying p, keeping empty pieces. -/
def splitPredChars (p : Char → Bool) : List Char → List Char → List (List Char)
  | [], cur => [cur.reverse]
  | x :: xs, cur =>
    if p x then cur.reverse :: splitPredChars p xs []
    else splitPredChars p xs (x :: cur)

/-- Rust str::trim: drop whitespace from both ends. Char.isWhitespace covers
the ASCII whitespace of every input considered here; Rust also trims exotic
Unicode whitespace. -/
def trimStr (s : String) : String :=
  (((s.toList.dropWhile Char.isWhitespace).reverse.dropWhile Char.isWhitespace).reverse).asString

/-- Rust str::starts_with for a string pattern. -/
def startsWithStr (s pre : String) : Bool :=
  (stripPrefixL pre.toList s.toList).isSome

/-- Rust byte-slice indexing past an ASCII operator prefix. -/
def dropStr (s : String) (n : Nat) : String :=
  (s.toList.drop n).asString

/-- Rust str::to_lowercase on the ASCII tokens the version grammar admits. -/
def toLowerStr (s : String) : String :=
  (s.toList.map Char.toLower).asString

/-- Patch token decomposition, semver.rs lines 271 to 296: a leading dash
starts the prerelease, inside which a plus starts the build metadata;
without a dash, a plus starts the build metadata directly. The source
signature is a Result but no path returns an error. -/
def SemverX.parse_patch_metadata (patch_part : String) :
    Except BubblingError (String × Option String × Option String) :=
  match splitAtFirst '-' patch_part with
  | some (p, pre) =>
    match splitAtFirst '+' pre with
    | some (pre_part, build_part) => .ok (p, some pre_part, some build_part)
    | none => .ok (p, some pre, none)
  | none =>
    match splitAtFirst '+' patch_part with
    | some (p, b) => .ok (p, none, some b)
    | none => .ok (patch_part, none, none)

/-- Environment token, semver.rs lines 298 to 311. The unknown-token error
carries stress_level 2.0 and can_recover true in the source. -/
def SemverX.parse_environment (env_str : String) : Except BubblingError Environment :=
  match toLowerStr env_str with
  | "dev" => .ok .Dev
  | "test" => .ok .Test
  | "staging" => .ok .Staging
  | "prod" => .ok .Prod
  | _ => .error
      { source := .ParsingError ("Unknown environment: " ++ env_str)
        context := ["SemverX::parse_environment"]
        stress_level := 2
        can_recover := true }

/-- Classifier token, semver.rs lines 313 to 326. The unknown-token error
carries stress_level 2.0 and can_recover true in the source. -/
def SemverX.parse_classifier (class_str : String) : Except BubblingError Classifier :=
  match toLowerStr class_str with
  | "stable" => .ok .Stable
  | "legacy" => .ok .Legacy
  | "experimental" => .ok .Experimental
  | "deprecated" => .ok .Deprecated
  | _ => .error
      { source := .ParsingError ("Unknown classifier: " ++ class_str)
        context := ["SemverX::parse_classifier"]
        stress_level := 2
        can_recover := true }

/-- Version parsing, semver.rs lines 198 to 269. The input is first split on
every dot; the third token then has prerelease and build metadata peeled off;
tokens four, five and six are consumed as environment, classifier and intent.
The integer-conversion error messages embed the Rust ParseIntError display
text in the source; that OS-level text is abbreviated here, while the fields
the claims inspect (kind, context, stress_level, can_recover) are kept exact. -/
def SemverX.parse (version_str : String) : Except BubblingError SemverX :=
  let parts := splitOnStr version_str "."
  if parts.length < 3 then
    .error
      { source := .ParsingError ("Invalid version format: " ++ version_str)
        context := ["SemverX::parse"]
        stress_level := 3
        can_recover := false }
  else
    match parseU32 (parts.getD 0 "") with
    | none => .error
        { source := .ParsingError "Invalid major version"
          context := ["SemverX::parse::major"]
          stress_level := 3
          can_recover := false }
    | some major =>
      match parseU32 (parts.getD 1 "") with
      | none => .error
          { source := .ParsingError "Invalid minor version"
            context := ["SemverX::parse::minor"]
            stress_level := 3
            can_recover := false }
      | some minor =>
        match SemverX.parse_patch_metadata (parts.getD 2 "") with
        | .error e => .error e
        | .ok (patch_str, prerelease, build) =>
          match parseU32 patch_str with
          | none => .error
              { source := .ParsingError "Invalid patch version"
                context := ["SemverX::parse::patch"]
                stress_level := 3
                can_recover := false }
          | some patch =>
            match (if 3 < parts.length
                   then (SemverX.parse_environment (parts.getD 3 "")).map some
                   else .ok none) with
            | .error e => .error e
            | .ok environment =>
              match (if 4 < parts.length
                     then (SemverX.parse_classifier (parts.getD 4 "")).map some
                     else .ok none) with
              | .error e => .error e
              | .ok classifier =>
                .ok
                  { major := major
                    minor := minor
                    patch := patch
                    prerelease := prerelease
                    build := build
                    environment := environment
                    classifier := classifier
                    intent := if 5 < parts.length then some (parts.getD 5 "") else none
                    sei := SEIMetadata.default }

/-- Rust Ordering cast to i32: Less is -1, Equal is 0, Greater is 1. -/
def cmpNat (a b : Nat) : Int :=
  if a < b then -1 else if b < a then 1 else 0

/-- Byte-lexicographic string order of Rust String::cmp; on UTF-8 this
coincides with codepoint-lexicographic order, modelled on the char list. -/
def cmpCharList : List Char → List Char → Int
  | [], [] => 0
  | [], _ :: _ => -1
  | _ :: _, [] => 1
  | a :: as, b :: bs =>
    if a.toNat < b.toNat then -1
    else if b.toNat < a.toNat then 1
    else cmpCharList as bs

def cmpString (a b : String) : Int := cmpCharList a.toList b.toList

/-- Version comparison, semver.rs lines 428 to 447: lexicographic on the
major, minor, patch triple, then no-prerelease outranks prerelease, then
string comparison on the two prerelease identifiers. -/
def SemverX.compare (a b : SemverX) : Int :=
  if a.major ≠ b.major then cmpNat a.major b.major
  else if a.minor ≠ b.minor then cmpNat a.minor b.minor
  else if a.patch ≠ b.patch then cmpNat a.patch b.patch
  else match a.prerelease, b.prerelease with
    | none, none => 0
    | none, some _ => 1
    | some _, none => -1
    | some x, some y => cmpString x y

/-- Rust str::split_whitespace: maximal nonempty runs between whitespace. -/
def splitWhitespace (s : String) : List String :=
  ((splitPredChars Char.isWhitespace s.toList []).map List.asString).filter (· ≠ "")

/-- One comparator, semver.rs lines 400 to 426: strip the operator prefix,
parse the remainder as a version, apply the comparison. -/
def SemverX.satisfies_single_comparator (v : SemverX) (comparator : String) :
    Except BubblingError Bool :=
  let opAndVersion :=
    if startsWithStr comparator ">=" then (0, dropStr comparator 2)
    else if startsWithStr comparator "<=" then (1, dropStr comparator 2)
    else if startsWithStr comparator ">" then (2, dropStr comparator 1)
    else if startsWithStr comparator "<" then (3, dropStr comparator 1)
    else if startsWithStr comparator "=" then (4, dropStr comparator 1)
    else (4, comparator)
  match SemverX.parse opAndVersion.2 with
  | .error e => .error e
  | .ok other =>
    .ok (match opAndVersion.1 with
      | 0 => decide (0 ≤ v.compare other)
      | 1 => decide (v.compare other ≤ 0)
      | 2 => decide (0 < v.compare other)
      | 3 => decide (v.compare other < 0)
      | _ => decide (v.compare other = 0))

/-- Conjunction loop of satisfies_comparator_set, semver.rs lines 387 to 398:
every comparator in the whitespace-separated set must hold. -/
def satisfiesComparatorsLoop (v : SemverX) : List String → Except BubblingError Bool
  | [] => .ok true
  | c :: rest =>
    match v.satisfies_single_comparator c with
    | .error e => .error e
    | .ok false => .ok false
    | .ok true => satisfiesComparatorsLoop v rest

def SemverX.satisfies_comparator_set (v : SemverX) (comparator_set : String) :
    Except BubblingError Bool :=
  satisfiesComparatorsLoop v (splitWhitespace comparator_set)

/-- Disjunction loop of satisfies, semver.rs lines 374 to 385: the range is
split on the double bar and the first satisfied comparator set wins. -/
def satisfiesPartsLoop (v : SemverX) : List String → Except BubblingError Bool
  | [] => .ok false
  | p :: rest =>
    match v.satisfies_comparator_set (trimStr p) with
    | .error e => .error e
    | .ok true => .ok true
    | .ok false => satisfiesPartsLoop v rest

def SemverX.satisfies (v : SemverX) (range : String) : Except BubblingError Bool :=
  satisfiesPartsLoop v (splitOnStr range "||")

/-- Validation, semver.rs lines 329 to 355. -/
def SemverX.validate (v : SemverX) : Except BubblingError Unit :=
  if 100 < v.sei.intent_priority then
    .error
      { source := .ValidatingError "Intent priority must be between 0-100"
        context := ["SemverX::validate::sei"]
        stress_level := 4
        can_recover := false }
  else if v.classifier = some .Deprecated ∧ v.environment = some .Prod then
    .error
      { source := .ValidatingError "Deprecated components cannot be deployed to production"
        context := ["SemverX::validate::deployment"]
        stress_level := 7
        can_recover := false }
  else .ok ()

/- ==================== Dependency resolver, src/resolver.rs ====================
   petgraph DiGraph is modelled as a node list (the position is the NodeIndex)
   plus an edge list of source index, target index and edge payload. The
   HashMap name index and the HashMap results are modelled as association
   lists with overwrite-on-insert semantics. -/

/-- Dependency record, resolver.rs lines 14 to 21. -/
structure Dependency where
  name : String
  version : SemverX
  range : String
  optional : Bool
  dev : Bool
  verb_noun_class : String
deriving DecidableEq

/-- Component node, resolver.rs lines 31 to 37. -/
structure ComponentNode where
  id : String
  version : SemverX
  dependencies : List Dependency
  health : ComponentHealth
  resolution_attempts : Nat
deriving DecidableEq

/-- Dependency edge payload, resolver.rs lines 40 to 44. -/
structure DependencyEdge where
  constraint : String
  weight : ℚ
  is_critical : Bool
deriving DecidableEq

/-- Resolution strategies, resolver.rs lines 49 to 54. -/
inductive ResolutionStrategy where
  | Eulerian
  | Hamiltonian
  | AStar
  | Hybrid
deriving DecidableEq

/-- Association-list lookup standing in for HashMap::get. -/
def lookupA {α : Type} (m : List (String × α)) (k : String) : Option α :=
  match m.find? (fun p => p.1 = k) with
  | some p => some p.2
  | none => none

/-- Association-list insert standing in for HashMap::insert: overwrite the
existing binding when the key is present, append otherwise. -/
def insertA {α : Type} (m : List (String × α)) (k : String) (v : α) : List (String × α) :=
  if (lookupA m k).isSome then m.map (fun p => if p.1 = k then (k, v) else p)
  else m ++ [(k, v)]

/-- Association-list lookup keyed by node index (HashMap of NodeIndex). -/
def lookupN {α : Type} (m : List (Nat × α)) (k : Nat) : Option α :=
  match m.find? (fun p => p.1 = k) with
  | some p => some p.2
  | none => none

def insertN {α : Type} (m : List (Nat × α)) (k : Nat) (v : α) : List (Nat × α) :=
  if (lookupN m k).isSome then m.map (fun p => if p.1 = k then (k, v) else p)
  else m ++ [(k, v)]

/-- Stress monitor of the resolver, resolver.rs lines 472 to 499: a bounded
queue of samples, capacity max_samples (100 on construction). The list front
is the queue front, so the oldest sample sits at the head. -/
structure StressMonitor where
  samples : List ℚ
  max_samples : Nat
deriving DecidableEq

def StressMonitor.new : StressMonitor := { samples := [], max_samples := 100 }

/-- add_sample, resolver.rs lines 485 to 490: pop the front when at or over
capacity, then push the new sample at the back. -/
def StressMonitor.add_sample (m : StressMonitor) (stress : ℚ) : StressMonitor :=
  let s := if m.max_samples ≤ m.samples.length then m.samples.tail else m.samples
  { m with samples := s ++ [stress] }

/-- current_stress, resolver.rs lines 492 to 498: arithmetic mean of the held
samples, zero when none are held. -/
def StressMonitor.current_stress (m : StressMonitor) : ℚ :=
  if m.samples.isEmpty then 0
  else m.samples.sum / (m.samples.length : ℚ)

/-- Dependency graph, resolver.rs lines 24 to 28. -/
structure DependencyGraph where
  nodes : List ComponentNode
  edges : List (Nat × Nat × DependencyEdge)
  node_map : List (String × Nat)
  stress_monitor : StressMonitor
deriving DecidableEq

def DependencyGraph.new : DependencyGraph :=
  { nodes := [], edges := [], node_map := [], stress_monitor := StressMonitor.new }

/-- add_component, resolver.rs lines 532 to 537: push the node, record its
index under its id. -/
def DependencyGraph.add_component (g : DependencyGraph) (c : ComponentNode) : DependencyGraph :=
  { g with nodes := g.nodes ++ [c], node_map := insertA g.node_map c.id g.nodes.length }

/-- add_dependency, resolver.rs lines 539 to 545: append a directed edge;
is_critical is derived from the weight. -/
def DependencyGraph.add_dependency (g : DependencyGraph) (from_idx to_idx : Nat)
    (constraint : String) (weight : ℚ) : DependencyGraph :=
  { g with edges := g.edges ++ [(from_idx, to_idx,
      { constraint := constraint, weight := weight, is_critical := 5 < weight })] }

/-- get_node, resolver.rs lines 512 to 520. -/
def DependencyGraph.get_node (g : DependencyGraph) (id : String) : Except BubblingError Nat :=
  match lookupA g.node_map id with
  | some idx => .ok idx
  | none => .error
      { source := .ResolvingError ("Node not found: " ++ id)
        context := ["DependencyGraph::get_node"]
        stress_level := 3
        can_recover := false }

/-- Outgoing edge references of a node, resolver.rs lines 522 to 530, as
target index and payload pairs. petgraph iterates outgoing edges most
recently added first; the model lists them in insertion order. Every
concrete graph evaluated below has at most one outgoing edge per node, and
the universally quantified theorems do not depend on edge order. -/
def DependencyGraph.get_edges (g : DependencyGraph) (node : Nat) : List (Nat × DependencyEdge) :=
  (g.edges.filter (fun e => e.1 = node)).map (fun e => (e.2.1, e.2.2))

/-- Resolution result, resolver.rs lines 464 to 469. -/
structure ResolutionResult where
  resolved_versions : List (String × SemverX)
  strategy_used : ResolutionStrategy
  iterations : Nat
  stress_impact : ℚ
deriving DecidableEq

/-- Resolver, resolver.rs lines 56 to 61. -/
structure SemverXResolver where
  graph : DependencyGraph
  strategy : ResolutionStrategy
  max_iterations : Nat
  bubble_errors : Bool
deriving DecidableEq

/-- Resolver construction, resolver.rs lines 64 to 71: Hybrid strategy and an
iteration cap of 1000. -/
def SemverXResolver.new : SemverXResolver :=
  { graph := DependencyGraph.new
    strategy := .Hybrid
    max_iterations := 1000
    bubble_errors := true }

/-- Strategy from stress, resolver.rs lines 92 to 101. -/
def SemverXResolver.determine_strategy_from_stress (r : SemverXResolver) : ResolutionStrategy :=
  let stress := r.graph.stress_monitor.current_stress
  if stress < 3 then .Hamiltonian
  else if stress < 6 then .AStar
  else if stress < 9 then .Eulerian
  else .Hybrid

/-- Version map extraction over node indices, resolver.rs lines 622 to 633.
The Eulerian strategy passes its popped node-index path to the id-keyed
extract_versions helper in the source, which does not typecheck as written;
both extractions are modelled as this index-based one, which is the evident
intent (collect the id-to-version binding of every node on the path). -/
def SemverXResolver.extract_versions_from_indices (r : SemverXResolver) (indices : List Nat) :
    List (String × SemverX) :=
  indices.foldl
    (fun versions idx =>
      match r.graph.nodes.get? idx with
      | some node => insertA versions node.id node.version
      | none => versions)
    []

/-- Edge compatibility validation, resolver.rs lines 558 to 589: both end
nodes must exist, and the target version must satisfy the edge constraint;
an unsatisfied constraint is a recoverable resolving error at stress 5. -/
def SemverXResolver.validate_edge_compatibility (r : SemverXResolver) (from_idx : Nat)
    (edge : Nat × DependencyEdge) : Except BubblingError Unit :=
  match r.graph.nodes.get? from_idx with
  | none => .error
      { source := .ResolvingError "Source node not found"
        context := ["validate_edge_compatibility"]
        stress_level := 4
        can_recover := false }
  | some _ =>
    match r.graph.nodes.get? edge.1 with
    | none => .error
        { source := .ResolvingError "Target node not found"
          context := ["validate_edge_compatibility"]
          stress_level := 4
          can_recover := false }
    | some to_node =>
      match to_node.version.satisfies edge.2.constraint with
      | .error e => .error e
      | .ok true => .ok ()
      | .ok false => .error
          { source := .ResolvingError ("Version " ++ toString to_node.version.major
              ++ " does not satisfy constraint " ++ edge.2.constraint)
            context := ["validate_edge_compatibility"]
            stress_level := 5
            can_recover := true }

/-- Goal test of the A* strategy, resolver.rs lines 591 to 606: every
non-optional, non-dev dependency of every visited node must be present in
the name map. The source reads self.node_map, a field the resolver does not
have; the graph name map, the only name map in scope, is meant. -/
def SemverXResolver.is_resolution_complete (r : SemverXResolver) (visited : List Nat) : Bool :=
  visited.all (fun idx =>
    match r.graph.nodes.get? idx with
    | some node =>
      node.dependencies.all (fun dep =>
        dep.optional || dep.dev || (lookupA r.graph.node_map dep.name).isSome)
    | none => true)

/- ==================== Eulerian strategy, resolver.rs lines 107 to 154 ==================== -/

/-- First outgoing edge not yet in the visited-edge set, matching the source
loop that scans the edge references in order and breaks at the first hit. -/
def findFirstUnvisited (node : Nat) (edges : List (Nat × DependencyEdge))
    (visited : List (Nat × Nat)) : Option (Nat × DependencyEdge) :=
  edges.find? (fun e => ¬ visited.contains (node, e.1))

/-- Main loop of resolve_eulerian. The stack is a list with its head as the
Vec top. The loop guard is: stack nonempty and iterations < max_iterations;
iterations grows by one per pass, so the fuel argument, kept equal to
max_iterations - iterations, renders the guard as fuel > 0. The visited edge
set (a HashSet of formatted source-target pairs in Rust) is a pair list. The
source marks the edge visited and pushes its target before validating, and a
validation error aborts the whole resolution. -/
def eulerLoop (r : SemverXResolver) :
    Nat → List Nat → List (Nat × Nat) → List Nat → Nat →
    Except BubblingError (List (Nat × Nat) × List Nat × Nat)
  | 0, _, visited, current_path, iterations => .ok (visited, current_path, iterations)
  | _ + 1, [], visited, current_path, iterations => .ok (visited, current_path, iterations)
  | fuel + 1, node :: rest, visited, current_path, iterations =>
    let iterations := iterations + 1
    let edges := r.graph.get_edges node
    match findFirstUnvisited node edges visited with
    | some e =>
      let visited := visited ++ [(node, e.1)]
      match r.validate_edge_compatibility node e with
      | .error err => .error err
      | .ok _ => eulerLoop r fuel (e.1 :: node :: rest) visited current_path iterations
    | none => eulerLoop r fuel rest visited (current_path ++ [node]) iterations

/-- resolve_eulerian, resolver.rs lines 107 to 154: run the loop from the
root, then reverse the popped sequence, report the visited edge count times
0.1 as stress impact. Reaching the iteration cap leaves the loop with the
work done so far and still produces an Ok result. -/
def SemverXResolver.resolve_eulerian (r : SemverXResolver) (component_id : String) :
    Except BubblingError ResolutionResult :=
  match r.graph.get_node component_id with
  | .error e => .error e
  | .ok start_node =>
    match eulerLoop r r.max_iterations [start_node] [] [] 0 with
    | .error e => .error e
    | .ok (visited_edges, current_path, iterations) =>
      .ok
        { resolved_versions := r.extract_versions_from_indices current_path.reverse
          strategy_used := .Eulerian
          iterations := iterations
          stress_impact := (visited_edges.length : ℚ) * (1 / 10) }

/- ==================== Hamiltonian strategy, resolver.rs lines 160 to 225 ==================== -/

/-- Neighbor targets of a node in edge order, resolver.rs lines 208 to 211. -/
def SemverXResolver.outNeighbors (r : SemverXResolver) (node : Nat) : List Nat :=
  (r.graph.get_edges node).map (fun e => e.1)

/-- Recursive body of find_hamiltonian_path, resolver.rs lines 187 to 225.
State is (found, visited, path, iterations); the three mutable collections
are threaded. Every call first increments the shared iteration counter and
gives up past the cap. The neighbor loop of the source returns at the first
successful recursive call; the fold skips the remaining neighbors once found
is set, which performs the same calls in the same order. The fuel argument
only serves Lean termination: calls started with fuel at least
max_iterations + 2 - iterations never reach the fuel-zero branch with the
guard still open, and that branch repeats exactly the over-cap behavior of
the source (increment, then give up untouched). -/
def hamRec (r : SemverXResolver) :
    Nat → Nat → List Nat → List Nat → Nat → (Bool × List Nat × List Nat × Nat)
  | 0, _, visited, path, iterations => (false, visited, path, iterations + 1)
  | fuel + 1, current, visited, path, iterations =>
    let iterations := iterations + 1
    if r.max_iterations < iterations then (false, visited, path, iterations)
    else
      let visited := if visited.contains current then visited else visited ++ [current]
      let path := path ++ [current]
      if visited.length = r.graph.nodes.length then (true, visited, path, iterations)
      else
        let step := fun (st : Bool × List Nat × List Nat × Nat) (neighbor : Nat) =>
          match st with
          | (true, v, p, it) => (true, v, p, it)
          | (false, v, p, it) =>
            if v.contains neighbor then (false, v, p, it)
            else hamRec r fuel neighbor v p it
        match (r.outNeighbors current).foldl step (false, visited, path, iterations) with
        | (true, v, p, it) => (true, v, p, it)
        | (false, v, p, it) => (false, v.filter (fun x => x ≠ current), p.dropLast, it)

/- ==================== A* strategy, resolver.rs lines 230 to 363 ==================== -/

/-- A* frontier entry, resolver.rs lines 231 to 236. -/
structure AStarNode where
  index : Nat
  cost : ℚ
  heuristic : ℚ
  parent : Option Nat
deriving DecidableEq

def AStarNode.total_cost (n : AStarNode) : ℚ := n.cost + n.heuristic

/-- Heuristic, resolver.rs lines 341 to 350: component stress plus half the
dependency count, or 100 for a missing node. -/
def SemverXResolver.heuristic_cost (r : SemverXResolver) (node : Nat) : ℚ :=
  match r.graph.nodes.get? node with
  | some component => component.health.stress_level + (component.dependencies.length : ℚ) * (1 / 2)
  | none => 100

/-- Pop of the BinaryHeap of AStarNode, whose reversed Ord makes the lowest
total cost come out first. Among equal keys the heap order is unspecified in
Rust; the model deterministically takes the earliest-pushed minimum. -/
def popMin : List AStarNode → Option (AStarNode × List AStarNode)
  | [] => none
  | x :: xs =>
    match popMin xs with
    | none => some (x, [])
    | some (m, rest) =>
      if x.total_cost ≤ m.total_cost then some (x, xs) else some (m, x :: rest)

/-- Parent-map walk of reconstruct_path, resolver.rs lines 352 to 363. The
fuel bounds the walk by the map size; the source loop relies on the parent
map being acyclic, which holds for the nonnegative weights the spec admits. -/
def reconstructWalk (came_from : List (Nat × Nat)) : Nat → Nat → List Nat → List Nat
  | 0, _, path => path
  | fuel + 1, current, path =>
    match lookupN came_from current with
    | some parent => reconstructWalk came_from fuel parent (path ++ [parent])
    | none => path

def SemverXResolver.reconstruct_path (came_from : List (Nat × Nat)) (endIdx : Nat) : List Nat :=
  (reconstructWalk came_from (came_from.length + 1) endIdx [endIdx]).reverse

/-- The failure value of resolve_a_star, resolver.rs lines 333 to 338, used
both when the cap breaks the loop and when the frontier runs dry. -/
def aStarFailure : BubblingError :=
  { source := .ResolvingError "A* resolution failed to find path"
    context := ["resolve_a_star"]
    stress_level := 6
    can_recover := true }

/-- Frontier expansion of one A* step, resolver.rs lines 313 to 330: for each
outgoing edge, relax the tentative score and push an entry when it improves
on the recorded score (absent counts as infinity). -/
def aStarExpand (r : SemverXResolver) (currentIdx : Nat)
    (st : List AStarNode × List (Nat × Nat) × List (Nat × ℚ)) :
    List AStarNode × List (Nat × Nat) × List (Nat × ℚ) :=
  (r.graph.get_edges currentIdx).foldl
    (fun (st : List AStarNode × List (Nat × Nat) × List (Nat × ℚ)) e =>
      let (open_set, came_from, g_score) := st
      let neighbor := e.1
      let edge_weight := e.2.weight
      let tentative := (lookupN g_score currentIdx).getD 0 + edge_weight
      let improves : Bool := match lookupN g_score neighbor with
        | some v => decide (tentative < v)
        | none => true
      if improves then
        (open_set ++ [{ index := neighbor, cost := tentative,
                        heuristic := r.heuristic_cost neighbor,
                        parent := some currentIdx }],
         insertN came_from neighbor currentIdx,
         insertN g_score neighbor tentative)
      else st)
    st

/-- Main loop of resolve_a_star, resolver.rs lines 289 to 331. Every pop
increments the iteration counter (also the pops skipped as already closed);
the counter passing the cap breaks out to the shared failure value, as does
an empty frontier. The fuel argument, at least max_iterations + 2 - iterations
at every call, only serves termination; its zero branch returns the same
failure the source produces past the cap. -/
def aStarLoop (r : SemverXResolver) :
    Nat → List AStarNode → List Nat → List (Nat × Nat) → List (Nat × ℚ) → Nat →
    Except BubblingError ResolutionResult
  | 0, _, _, _, _, _ => .error aStarFailure
  | fuel + 1, open_set, closed_set, came_from, g_score, iterations =>
    match popMin open_set with
    | none => .error aStarFailure
    | some (current, open_set) =>
      let iterations := iterations + 1
      if r.max_iterations < iterations then .error aStarFailure
      else if closed_set.contains current.index then
        aStarLoop r fuel open_set closed_set came_from g_score iterations
      else
        let closed_set := closed_set ++ [current.index]
        if r.is_resolution_complete closed_set then
          .ok
            { resolved_versions := r.extract_versions_from_indices
                (SemverXResolver.reconstruct_path came_from current.index)
              strategy_used := .AStar
              iterations := iterations
              stress_impact := current.cost * (1 / 10) }
        else
          let (open_set, came_from, g_score) :=
            aStarExpand r current.index (open_set, came_from, g_score)
          aStarLoop r fuel open_set closed_set came_from g_score iterations

/-- resolve_a_star, resolver.rs lines 265 to 339: look up the start index
(missing component is a non-recoverable resolving error at stress 4), seed
the frontier with the start node at cost zero, run the loop. -/
def SemverXResolver.resolve_a_star (r : SemverXResolver) (component_id : String) :
    Except BubblingError ResolutionResult :=
  match lookupA r.graph.node_map component_id with
  | none => .error
      { source := .ResolvingError ("Component not found: " ++ component_id)
        context := ["resolve_a_star"]
        stress_level := 4
        can_recover := false }
  | some start_idx =>
    aStarLoop r (r.max_iterations + 2)
      [{ index := start_idx, cost := 0, heuristic := r.heuristic_cost start_idx, parent := none }]
      [] [] [(start_idx, 0)] 0

/-- resolve_hamiltonian, resolver.rs lines 160 to 185: missing component is a
non-recoverable resolving error at stress 4; a found Hamiltonian path is a
success at 0.05 stress per path node; a failed search falls back to A*. -/
def SemverXResolver.resolve_hamiltonian (r : SemverXResolver) (component_id : String) :
    Except BubblingError ResolutionResult :=
  match lookupA r.graph.node_map component_id with
  | none => .error
      { source := .ResolvingError ("Component not found: " ++ component_id)
        context := ["resolve_hamiltonian"]
        stress_level := 4
        can_recover := false }
  | some start_idx =>
    match hamRec r (r.max_iterations + 2) start_idx [] [] 0 with
    | (true, _, path, iterations) =>
      .ok
        { resolved_versions := r.extract_versions_from_indices path
          strategy_used := .Hamiltonian
          iterations := iterations
          stress_impact := (path.length : ℚ) * (1 / 20) }
    | (false, _, _, _) => r.resolve_a_star component_id

/- ==================== Hybrid strategy and dispatch, resolver.rs lines 74 to 101 and 369 to 409 ==================== -/

/-- The synthesized failure of resolve_hybrid when no attempt left an error,
resolver.rs lines 403 to 408. -/
def allStrategiesFailed : BubblingError :=
  { source := .ResolvingError "All resolution strategies failed"
    context := ["resolve_hybrid"]
    stress_level := 9
    can_recover := false }

/-- Dispatch of resolve(id, Some(strategy)) for the three simple strategies,
resolver.rs lines 84 to 89. The Hybrid arm of the source dispatch re-enters
resolve_hybrid; resolve_hybrid itself only ever dispatches the three simple
strategies (its lists never contain Hybrid), so that arm is unreachable from
it and is modelled by the synthesized failure value. The public entry point
resolve below routes Hybrid to resolve_hybrid directly. -/
def SemverXResolver.resolveSimple (r : SemverXResolver) (component_id : String) :
    ResolutionStrategy → Except BubblingError ResolutionResult
  | .Eulerian => r.resolve_eulerian component_id
  | .Hamiltonian => r.resolve_hamiltonian component_id
  | .AStar => r.resolve_a_star component_id
  | .Hybrid => .error allStrategiesFailed

/-- Strategy attempt loop of resolve_hybrid, resolver.rs lines 387 to 401:
accept the first success, remember and skip past recoverable errors, abort
on the first non-recoverable error; when the list runs out, report the last
remembered error or the synthesized failure. -/
def tryStrategiesLoop (r : SemverXResolver) (component_id : String) :
    List ResolutionStrategy → Option BubblingError → Except BubblingError ResolutionResult
  | [], last_error => .error (last_error.getD allStrategiesFailed)
  | s :: rest, _ =>
    match r.resolveSimple component_id s with
    | .ok result => .ok result
    | .error e =>
      if e.can_recover then tryStrategiesLoop r component_id rest (some e)
      else .error e

/-- resolve_hybrid, resolver.rs lines 369 to 409: the attempt order depends
on the current stress read at entry. -/
def SemverXResolver.resolve_hybrid (r : SemverXResolver) (component_id : String) :
    Except BubblingError ResolutionResult :=
  let stress := r.graph.stress_monitor.current_stress
  let strategies : List ResolutionStrategy :=
    if stress < 6 then [.Hamiltonian, .AStar, .Eulerian]
    else [.AStar, .Eulerian, .Hamiltonian]
  tryStrategiesLoop r component_id strategies none

/-- Full strategy dispatch of resolve, resolver.rs lines 84 to 89. -/
def SemverXResolver.resolveWith (r : SemverXResolver) (component_id : String) :
    ResolutionStrategy → Except BubblingError ResolutionResult
  | .Eulerian => r.resolve_eulerian component_id
  | .Hamiltonian => r.resolve_hamiltonian component_id
  | .AStar => r.resolve_a_star component_id
  | .Hybrid => r.resolve_hybrid component_id

/-- resolve, resolver.rs lines 74 to 90: an absent strategy argument is
filled from the current stress. -/
def SemverXResolver.resolve (r : SemverXResolver) (component_id : String)
    (strategy : Option ResolutionStrategy) : Except BubblingError ResolutionResult :=
  r.resolveWith component_id (strategy.getD r.determine_strategy_from_stress)

/- ==================== Cycle and diamond breaker, resolver.rs lines 415 to 458 ==================== -/

/-- One round of frontier growth for reachability over the edge list. -/
def reachStep (edges : List (Nat × Nat × DependencyEdge)) (reached : List Nat) : List Nat :=
  edges.foldl
    (fun acc e => if acc.contains e.1 ∧ ¬ acc.contains e.2.1 then acc ++ [e.2.1] else acc)
    reached

/-- Nodes reachable from u by a nonempty or empty path, computed by iterating
frontier growth as many times as there are nodes. -/
def reachableFrom (g : DependencyGraph) (u : Nat) : List Nat :=
  Nat.rec [u] (fun _ acc => reachStep g.edges acc) g.nodes.length

/-- Strongly connected component of u as the set of mutually reachable nodes,
listed in index order. -/
def sccOf (g : DependencyGraph) (u : Nat) : List Nat :=
  (List.range g.nodes.length).filter
    (fun v => (reachableFrom g u).contains v ∧ (reachableFrom g v).contains u)

/-- All strongly connected components. petgraph tarjan_scc emits the same
components as sets; its emission order (reverse topological) and intra-SCC
vertex order may differ from the index order used here. The evaluation below
that relies on this definition is order-invariant: the graph it inspects has
one SCC whose candidate break edges all carry the same weight. -/
def tarjanSccs (g : DependencyGraph) : List (List Nat) :=
  (List.range g.nodes.length).foldl
    (fun acc u => if acc.any (fun scc => scc.contains u) then acc else acc ++ [sccOf g u])
    []

/-- find_edge of petgraph: the first edge index from one node to another. -/
def findEdgeIdx (g : DependencyGraph) (from_idx to_idx : Nat) : Option Nat :=
  (List.range g.edges.length).find?
    (fun i => match g.edges.get? i with
      | some e => e.1 = from_idx ∧ e.2.1 = to_idx
      | none => false)

/-- Scan of break_cycle_with_version_pinning over the consecutive vertex
pairs of the cycle list, resolver.rs lines 431 to 445: keep the edge of
highest weight, comparing strictly against a running maximum initialized to
0.0, so an all-zero-weight cycle selects no edge at all. -/
def maxWeightEdgeScan (g : DependencyGraph) (cycle : List Nat) : Option (Nat × Nat) :=
  (List.range cycle.length).foldl
    (fun (st : ℚ × Option (Nat × Nat)) i =>
      let from_idx := cycle.getD i 0
      let to_idx := cycle.getD ((i + 1) % cycle.length) 0
      match findEdgeIdx g from_idx to_idx with
      | some eidx =>
        let weight := match g.edges.get? eidx with
          | some e => e.2.2.weight
          | none => 0
        if st.1 < weight then (weight, some (to_idx, eidx)) else st
      | none => st)
    (0, none)
  |>.2

/-- Pin the classifier of a node to Stable, resolver.rs lines 452 to 454. -/
def pinStable (nodes : List ComponentNode) (to_idx : Nat) : List ComponentNode :=
  match nodes.get? to_idx with
  | some node =>
    nodes.set to_idx { node with version := { node.version with classifier := some .Stable } }
  | none => nodes

/-- break_cycle_with_version_pinning, resolver.rs lines 429 to 458: remove
the selected highest-weight edge, if any, and pin the target node version.
The source signature is a Result that never returns an error. -/
def SemverXResolver.break_cycle_with_version_pinning (r : SemverXResolver)
    (cycle : List Nat) : SemverXResolver :=
  match maxWeightEdgeScan r.graph cycle with
  | some (to_idx, eidx) =>
    { r with graph :=
        { r.graph with
          edges := r.graph.edges.eraseIdx eidx
          nodes := pinStable r.graph.nodes to_idx } }
  | none => r

/-- prevent_diamond_dependency, resolver.rs lines 415 to 427: compute the
strongly connected components once, then break every component of size
above one. Always returns Ok. -/
def SemverXResolver.prevent_diamond_dependency (r : SemverXResolver) :
    Except BubblingError SemverXResolver :=
  let sccs := tarjanSccs r.graph
  .ok (sccs.foldl
    (fun r scc => if 1 < scc.length then r.break_cycle_with_version_pinning scc else r)
    r)

/- ==================== Shared fixtures and helper lemmas ==================== -/

/-- Health record at rest: zero stress, Ok zone. -/
def mkHealth : ComponentHealth :=
  { stress_level := 0, zone := .Ok, heal_attempts := 0, last_heal_timestamp := 0 }

/-- A plain version carrying only the core triple. -/
def mkVer (a b c : Nat) : SemverX :=
  { major := a, minor := b, patch := c, prerelease := none, build := none,
    environment := none, classifier := none, intent := none, sei := SEIMetadata.default }

/-- A component node at version 1.0.0 with the given dependency list. -/
def mkNode (id : String) (deps : List Dependency) : ComponentNode :=
  { id := id, version := mkVer 1 0 0, dependencies := deps, health := mkHealth,
    resolution_attempts := 0 }

/- Decidable equality on Except results, for concrete evaluations. -/
deriving instance DecidableEq for Except

/-- The two-node cycle with both edge weights 0.0: components a and b, edges
a to b and b to a, the configuration the cycle breaker fails to break. -/
def twoCycleGraph : DependencyGraph :=
  ((DependencyGraph.new.add_component (mkNode "a" [])).add_component (mkNode "b" []))
  |>.add_dependency 0 1 "" 0 |>.add_dependency 1 0 "" 0

def twoCycleResolver : SemverXResolver := { SemverXResolver.new with graph := twoCycleGraph }

/-- A mandatory dependency on a component absent from the graph. -/
def missingDep : Dependency :=
  { name := "missing", version := mkVer 1 0 0, range := "", optional := false, dev := false,
    verb_noun_class := "" }

/-- Two components a and b, one edge a to b whose range constraint is the
malformed string >=x, component a carrying an unresolvable mandatory
dependency, and a stress monitor holding the single sample 7. -/
def hybridLossGraph : DependencyGraph :=
  { (((DependencyGraph.new.add_component (mkNode "a" [missingDep])).add_component
      (mkNode "b" [])).add_dependency 0 1 ">=x" 1) with
    stress_monitor := { samples := [7], max_samples := 100 } }

def hybridLossResolver : SemverXResolver := { SemverXResolver.new with graph := hybridLossGraph }

/-- The error satisfies raises on the malformed range >=x: parsing the
version x fails the three-dot-segment check, non-recoverably. -/
def eulerParseErr : BubblingError :=
  { source := .ParsingError "Invalid version format: x"
    context := ["SemverX::parse"], stress_level := 3, can_recover := false }

/-- One component a with no dependencies and no edges. -/
def singleNodeResolver : SemverXResolver :=
  { SemverXResolver.new with graph := DependencyGraph.new.add_component (mkNode "a" []) }

/-- The Eulerian result on the single-node graph: one loop pass pops a. -/
def singleEulerRes : ResolutionResult :=
  { resolved_versions := [("a", mkVer 1 0 0)], strategy_used := .Eulerian,
    iterations := 1, stress_impact := ((([] : List (Nat × Nat)).length : ℚ) * (1 / 10)) }

/-- A three-component chain c0 to c1 to c2 with satisfiable constraints. -/
def chain3Graph : DependencyGraph :=
  (((DependencyGraph.new.add_component (mkNode "c0" [])).add_component
    (mkNode "c1" [])).add_component (mkNode "c2" []))
  |>.add_dependency 0 1 "" 1 |>.add_dependency 1 2 "" 1

/-- The chain resolver with the iteration cap field set to 2, so the Eulerian
loop is cut off after visiting the two edges and before popping any node.
The source constructor fixes the cap at 1000; the Eulerian code path treats
the cap uniformly, and the general cap theorems below cover every cap value. -/
def cap2Resolver : SemverXResolver :=
  { SemverXResolver.new with graph := chain3Graph, max_iterations := 2 }

/-- Two disconnected components where a carries an unresolvable mandatory
dependency: the Hamiltonian search cannot cover both nodes and the A* goal
test never holds, so both paths end in the shared A* failure. -/
def hamFailResolver : SemverXResolver :=
  { SemverXResolver.new with graph :=
      (DependencyGraph.new.add_component (mkNode "a" [missingDep])).add_component (mkNode "b" []) }

/-- The unknown-environment error of parse_environment at token x. -/
def c7EnvErr : BubblingError :=
  { source := .ParsingError "Unknown environment: x"
    context := ["SemverX::parse_environment"], stress_level := 2, can_recover := true }

/-- The structural error of parse at the two-segment input 1.2: fewer than
three dot segments, stress 3, non-recoverable. -/
def c7FormatErr : BubblingError :=
  { source := .ParsingError "Invalid version format: 1.2"
    context := ["SemverX::parse"], stress_level := 3, can_recover := false }

/-- The stress-to-strategy step function exactly as the specification words
it: Hamiltonian when stress < 3, A* when 3 <= stress < 6, Eulerian when
6 <= stress < 9, Hybrid when stress >= 9. Stated from the spec, for
comparison against determine_strategy_from_stress taken from the source. -/
def specStressStepStrategy (s : ℚ) : ResolutionStrategy :=
  if s < 3 then .Hamiltonian
  else if 3 ≤ s ∧ s < 6 then .AStar
  else if 6 ≤ s ∧ s < 9 then .Eulerian
  else .Hybrid

theorem cmpNat_cases (a b : Nat) : cmpNat a b = -1 ∨ cmpNat a b = 0 ∨ cmpNat a b = 1 := by
  unfold cmpNat
  split_ifs <;> simp

theorem cmpNat_antisymm (a b : Nat) : cmpNat a b = -cmpNat b a := by
  unfold cmpNat
  split_ifs <;> omega

theorem parse_patch_metadata_never_errors (s : String) (e : BubblingError) :
    SemverX.parse_patch_metadata s = .error e → False := by
  unfold SemverX.parse_patch_metadata
  split <;> (try split) <;> simp

theorem env_error_shape (s : String) (e : BubblingError)
    (h : SemverX.parse_environment s = .error e) :
    e.stress_level = 2 ∧ e.can_recover = true ∧
      e.context = ["SemverX::parse_environment"] ∧ ∃ m, e.source = .ParsingError m := by
  unfold SemverX.parse_environment at h
  split at h <;> simp_all
  subst h
  exact ⟨rfl, rfl, rfl, "Unknown environment: " ++ s, rfl⟩

theorem classifier_error_shape (s : String) (e : BubblingError)
    (h : SemverX.parse_classifier s = .error e) :
    e.stress_level = 2 ∧ e.can_recover = true ∧
      e.context = ["SemverX::parse_classifier"] ∧ ∃ m, e.source = .ParsingError m := by
  unfold SemverX.parse_classifier at h
  split at h <;> simp_all
  subst h
  exact ⟨rfl, rfl, rfl, "Unknown classifier: " ++ s, rfl⟩

theorem parse_error_stress (s : String) (e : BubblingError)
    (h : SemverX.parse s = .error e) :
    (∃ m, e.source = .ParsingError m) ∧
    ((e.stress_level = 3 ∧ e.can_recover = false ∧
        (e.context = ["SemverX::parse"] ∨ e.context = ["SemverX::parse::major"] ∨
         e.context = ["SemverX::parse::minor"] ∨ e.context = ["SemverX::parse::patch"])) ∨
     (e.stress_level = 2 ∧ e.can_recover = true ∧
        (e.context = ["SemverX::parse_environment"] ∨
         e.context = ["SemverX::parse_classifier"]))) := by
  unfold SemverX.parse at h
  dsimp only at h
  split at h
  · simp only [Except.error.injEq] at h; subst h; exact ⟨⟨_, rfl⟩, Or.inl ⟨rfl, rfl, by simp⟩⟩
  · split at h
    · simp only [Except.error.injEq] at h; subst h; exact ⟨⟨_, rfl⟩, Or.inl ⟨rfl, rfl, by simp⟩⟩
    · split at h
      · simp only [Except.error.injEq] at h; subst h; exact ⟨⟨_, rfl⟩, Or.inl ⟨rfl, rfl, by simp⟩⟩
      · split at h
        · exact (parse_patch_metadata_never_errors _ _ (by assumption)).elim
        · split at h
          · simp only [Except.error.injEq] at h; subst h; exact ⟨⟨_, rfl⟩, Or.inl ⟨rfl, rfl, by simp⟩⟩
          · split at h
            · simp only [Except.error.injEq] at h; subst h
              rename_i e1 heq
              split at heq
              · rcases hpe : SemverX.parse_environment ((splitOnStr s ".").getD 3 "") with e' | v
                · rw [hpe] at heq
                  simp only [Except.map] at heq
                  injection heq with heq'
                  subst heq'
                  obtain ⟨h2, hrec, hctx, m, hm⟩ := env_error_shape _ _ hpe
                  exact ⟨⟨m, hm⟩, Or.inr ⟨h2, hrec, Or.inl hctx⟩⟩
                · rw [hpe] at heq
                  simp [Except.map] at heq
              · simp at heq
            · split at h
              · simp only [Except.error.injEq] at h; subst h
                rename_i e2 heq
                split at heq
                · rcases hpc : SemverX.parse_classifier ((splitOnStr s ".").getD 4 "") with e' | v
                  · rw [hpc] at heq
                    simp only [Except.map] at heq
                    injection heq with heq'
                    subst heq'
                    obtain ⟨h2, hrec, hctx, m, hm⟩ := classifier_error_shape _ _ hpc
                    exact ⟨⟨m, hm⟩, Or.inr ⟨h2, hrec, Or.inr hctx⟩⟩
                  · rw [hpc] at heq
                    simp [Except.map] at heq
                · simp at heq
              · simp at h

theorem eulerLoop_ok_iterations (r : SemverXResolver) :
    ∀ (fuel : Nat) (stack : List Nat) (visited : List (Nat × Nat)) (path : List Nat)
      (iters : Nat) (out : List (Nat × Nat) × List Nat × Nat),
      eulerLoop r fuel stack visited path iters = .ok out → out.2.2 ≤ iters + fuel := by
  intro fuel
  induction fuel with
  | zero =>
    intro stack visited path iters out h
    unfold eulerLoop at h
    simp only [Except.ok.injEq] at h
    subst h
    simp
  | succ n ih =>
    intro stack visited path iters out h
    match stack with
    | [] =>
      unfold eulerLoop at h
      simp only [Except.ok.injEq] at h
      subst h
      simp
    | node :: rest =>
      unfold eulerLoop at h
      dsimp only at h
      split at h
      · split at h
        · exact absurd h (by simp)
        · have := ih _ _ _ _ _ h
          omega
      · have := ih _ _ _ _ _ h
        omega

theorem aStarLoop_error_shape (r : SemverXResolver) :
    ∀ (fuel : Nat) (open_set : List AStarNode) (closed : List Nat)
      (came : List (Nat × Nat)) (g : List (Nat × ℚ)) (iters : Nat) (e : BubblingError),
      aStarLoop r fuel open_set closed came g iters = .error e → e = aStarFailure := by
  intro fuel
  induction fuel with
  | zero =>
    intro open_set closed came g iters e h
    unfold aStarLoop at h
    simp only [Except.error.injEq] at h
    exact h.symm
  | succ n ih =>
    intro open_set closed came g iters e h
    unfold aStarLoop at h
    dsimp only at h
    split at h
    · simp only [Except.error.injEq] at h; exact h.symm
    · split at h
      · simp only [Except.error.injEq] at h; exact h.symm
      · split at h
        · exact ih _ _ _ _ _ _ h
        · split at h
          · exact absurd h (by simp)
          · exact ih _ _ _ _ _ _ h

theorem resolve_eulerian_iterations_le (r : SemverXResolver) (id : String)
    (res : ResolutionResult) (h : r.resolve_eulerian id = .ok res) :
    res.iterations ≤ r.max_iterations := by
  unfold SemverXResolver.resolve_eulerian at h
  split at h
  · exact absurd h (by simp)
  · split at h
    · exact absurd h (by simp)
    · rename_i out heq
      simp only [Except.ok.injEq] at h
      subst h
      simpa using eulerLoop_ok_iterations r r.max_iterations _ _ _ 0 _ heq

theorem resolve_a_star_error_shape (r : SemverXResolver) (id : String) (e : BubblingError)
    (hfound : (lookupA r.graph.node_map id).isSome = true)
    (h : r.resolve_a_star id = .error e) : e = aStarFailure := by
  unfold SemverXResolver.resolve_a_star at h
  split at h
  · rename_i hnone; rw [hnone] at hfound; simp at hfound
  · exact aStarLoop_error_shape r _ _ _ _ _ _ _ h

theorem resolve_hamiltonian_fallback (r : SemverXResolver) (id : String) (idx : Nat)
    (hfound : lookupA r.graph.node_map id = some idx)
    (hfail : (hamRec r (r.max_iterations + 2) idx [] [] 0).1 = false) :
    r.resolve_hamiltonian id = r.resolve_a_star id := by
  rcases hh : hamRec r (r.max_iterations + 2) idx [] [] 0 with ⟨b, v, p, it⟩
  rw [hh] at hfail
  simp only at hfail
  subst hfail
  simp only [SemverXResolver.resolve_hamiltonian, hfound, hh]

theorem tryStrategiesLoop_ok_of (r : SemverXResolver) (id : String) :
    ∀ (ss : List ResolutionStrategy) (last : Option BubblingError),
      (∀ s ∈ ss, ∀ e, r.resolveSimple id s = .error e → e.can_recover = true) →
      (∃ s ∈ ss, (r.resolveSimple id s).isOk = true) →
      (tryStrategiesLoop r id ss last).isOk = true := by
  intro ss
  induction ss with
  | nil =>
    intro last _ hex
    rcases hex with ⟨s, hs, _⟩
    simp at hs
  | cons a rest ih =>
    intro last hrec hex
    unfold tryStrategiesLoop
    rcases hres : r.resolveSimple id a with e | v
    · have hcr : e.can_recover = true := hrec a (by simp) e hres
      dsimp only
      rw [hcr]
      simp only [if_pos]
      apply ih
      · intro s hs e' he'
        exact hrec s (by simp [hs]) e' he'
      · rcases hex with ⟨s, hs, hok⟩
        rcases List.mem_cons.mp hs with rfl | hs'
        · rw [hres] at hok; simp [Except.isOk, Except.toBool] at hok
        · exact ⟨s, hs', hok⟩
    · dsimp only
      rfl

theorem resolve_hybrid_ok_of (r : SemverXResolver) (id : String)
    (hrec : ∀ s : ResolutionStrategy, s ≠ .Hybrid →
      ∀ e, r.resolveSimple id s = .error e → e.can_recover = true)
    (hex : ∃ s : ResolutionStrategy, s ≠ .Hybrid ∧ (r.resolveSimple id s).isOk = true) :
    (r.resolve_hybrid id).isOk = true := by
  unfold SemverXResolver.resolve_hybrid
  dsimp only
  rcases hex with ⟨s, hne, hok⟩
  have hmem : ∀ (l : List ResolutionStrategy),
      l = [.Hamiltonian, .AStar, .Eulerian] ∨ l = [.AStar, .Eulerian, .Hamiltonian] →
      s ∈ l := by
    intro l hl
    rcases hl with rfl | rfl <;> cases s <;> simp_all
  split
  · apply tryStrategiesLoop_ok_of
    · intro t ht e he
      apply hrec t _ e he
      rintro rfl; simp at ht
    · exact ⟨s, hmem _ (Or.inl rfl), hok⟩
  · apply tryStrategiesLoop_ok_of
    · intro t ht e he
      apply hrec t _ e he
      rintro rfl; simp at ht
    · exact ⟨s, hmem _ (Or.inr rfl), hok⟩

theorem monitor_fold_append (xs : List ℚ) : ∀ m : StressMonitor,
    m.samples.length + xs.length ≤ m.max_samples →
    (xs.foldl StressMonitor.add_sample m).samples = m.samples ++ xs := by
  induction xs with
  | nil => intro m _; simp
  | cons x rest ih =>
    intro m h
    have hlt : ¬ m.max_samples ≤ m.samples.length := by
      simp [List.length_cons] at h
      omega
    have hstep : m.add_sample x = { m with samples := m.samples ++ [x] } := by
      simp [StressMonitor.add_sample, hlt]
    rw [List.foldl_cons, hstep, ih]
    · simp
    · simp
      simp [List.length_cons] at h
      omega

/- ==================== Claim theorems ==================== -/

/-- C1: the claim states that parsing 1.2.3-alpha.1 succeeds with major 1,
minor 2, patch 3 and prerelease alpha.1. Evaluating the embedded parse at
that input shows the code instead fails: the input is split on every dot
first, so the token 1 after alpha is consumed as an environment token and
parse returns the unknown-environment parsing error. This contradicts the
test test_parse_with_prerelease in semver.rs, which asserts the prerelease
alpha.1, so the code, not the claim, is wrong. -/
theorem c1_parse_dotted_prerelease_rejected :
    SemverX.parse "1.2.3-alpha.1" = .error
      { source := .ParsingError "Unknown environment: 1"
        context := ["SemverX::parse_environment"]
        stress_level := 2
        can_recover := true } := by decide

/-- C2: the claim states that after prevent_diamond_dependency returns Ok
the graph has no SCC of size above one. On the two-node cycle whose edges
both weigh 0.0, the max-weight scan of break_cycle_with_version_pinning
compares strictly against an initial maximum of 0.0, selects no edge,
removes nothing, and still returns Ok: the returned resolver is unchanged
and the two-node SCC survives, contradicting the stated purpose of the
function (found a cycle, break it), so the code, not the claim, is wrong. -/
theorem c2_zero_weight_two_cycle_not_broken :
    twoCycleResolver.prevent_diamond_dependency = .ok twoCycleResolver ∧
    tarjanSccs twoCycleResolver.graph = [[0, 1]] := by decide

/-- C3 counterexample: the claim states that a strategy reaching the
iteration cap without succeeding returns a recoverable resolving error
rather than a success result. On the three-node chain with the cap field at
2, the Eulerian strategy spends both iterations visiting edges, is cut off
with the stack still full, and returns a success result whose iteration
count equals the cap and whose resolution map is empty: no error at all. -/
theorem c3_counterexample_cap_hit_returns_ok :
    ((cap2Resolver.resolve_eulerian "c0").toOption.map ResolutionResult.iterations
      = some cap2Resolver.max_iterations) ∧
    ((cap2Resolver.resolve_eulerian "c0").toOption.map ResolutionResult.resolved_versions
      = some []) := by decide

/-- C3 amended: every strategy performs at most max_iterations loop passes,
and the iteration count a successful Eulerian run reports never exceeds the
cap; but only A* turns the exhausted cap into the recoverable resolving
error (the same failure value it uses for an exhausted frontier), while the
Eulerian loop cut off at the cap returns its accumulated state as a success
result, and a failed Hamiltonian search falls back to A* instead of
reporting the cap itself. -/
theorem c3_iteration_cap_behavior :
    (∀ (r : SemverXResolver) (id : String) (res : ResolutionResult),
      r.resolve_eulerian id = .ok res → res.iterations ≤ r.max_iterations) ∧
    (∀ (r : SemverXResolver) (stack : List Nat) (visited : List (Nat × Nat))
      (path : List Nat) (iters : Nat),
      eulerLoop r 0 stack visited path iters = .ok (visited, path, iters)) ∧
    (∀ (r : SemverXResolver) (id : String) (e : BubblingError),
      (lookupA r.graph.node_map id).isSome = true →
      r.resolve_a_star id = .error e → e = aStarFailure) ∧
    (∀ (r : SemverXResolver) (id : String) (idx : Nat),
      lookupA r.graph.node_map id = some idx →
      (hamRec r (r.max_iterations + 2) idx [] [] 0).1 = false →
      r.resolve_hamiltonian id = r.resolve_a_star id) :=
  ⟨resolve_eulerian_iterations_le, fun _ _ _ _ _ => rfl,
   resolve_a_star_error_shape, resolve_hamiltonian_fallback⟩

/-- Witness for C3: the single-node resolver gives a successful Eulerian run
whose iteration count respects the cap, and the disconnected two-node
resolver gives a concrete A* failure equal to the shared failure value and a
concrete Hamiltonian fallback to A*. -/
theorem c3_witness :
    (singleNodeResolver.resolve_eulerian "a" = .ok singleEulerRes ∧
      singleEulerRes.iterations ≤ singleNodeResolver.max_iterations) ∧
    ((lookupA hamFailResolver.graph.node_map "a").isSome = true ∧
      hamFailResolver.resolve_a_star "a" = .error aStarFailure ∧
      aStarFailure = aStarFailure) ∧
    (lookupA hamFailResolver.graph.node_map "a" = some 0 ∧
      (hamRec hamFailResolver (hamFailResolver.max_iterations + 2) 0 [] [] 0).1 = false ∧
      hamFailResolver.resolve_hamiltonian "a" = hamFailResolver.resolve_a_star "a") := by
  have heul : singleNodeResolver.resolve_eulerian "a" = .ok singleEulerRes := rfl
  have hast : hamFailResolver.resolve_a_star "a" = .error aStarFailure := by decide
  have hfound : lookupA hamFailResolver.graph.node_map "a" = some 0 := by decide
  have hfail : (hamRec hamFailResolver (hamFailResolver.max_iterations + 2) 0 [] [] 0).1
      = false := by decide
  exact ⟨⟨heul, c3_iteration_cap_behavior.1 _ _ _ heul⟩,
    ⟨by decide, hast, c3_iteration_cap_behavior.2.2.1 _ "a" aStarFailure (by decide) hast⟩,
    ⟨hfound, hfail, c3_iteration_cap_behavior.2.2.2 _ "a" 0 hfound hfail⟩⟩

/-- C4 counterexample: the claim states that whenever one strategy alone
would succeed, Hybrid also succeeds. On the two-component graph whose one
edge carries the malformed range >=x, with component a holding an
unresolvable mandatory dependency and the stress monitor at 7: Hamiltonian
alone succeeds, but Hybrid (ordered A*, Eulerian, Hamiltonian at stress 7)
meets the recoverable A* failure, then the non-recoverable range-parse
error inside the Eulerian edge validation, and aborts without ever trying
Hamiltonian. -/
theorem c4_counterexample_hybrid_misses_success :
    (hybridLossResolver.resolveSimple "a" .Hamiltonian).isOk = true ∧
    (hybridLossResolver.resolve "a" (some .Hybrid)).isOk = false := by
  refine ⟨by decide, ?_⟩
  have hA : hybridLossResolver.resolveSimple "a" .AStar = .error aStarFailure := by decide
  have hE : hybridLossResolver.resolveSimple "a" .Eulerian = .error eulerParseErr := by decide
  have hstress : hybridLossResolver.graph.stress_monitor.current_stress = 7 := by
    simp [StressMonitor.current_stress, hybridLossResolver, hybridLossGraph]
  show (hybridLossResolver.resolve_hybrid "a").isOk = false
  unfold SemverXResolver.resolve_hybrid
  rw [hstress]
  dsimp only
  rw [if_neg (by norm_num : ¬ (7 : ℚ) < 6)]
  simp only [tryStrategiesLoop, hA, hE]
  rfl

/-- C4 amended: Hybrid is the dispatch target of resolve with the Hybrid
strategy, and it returns success whenever some simple strategy succeeds on
the graph and every simple-strategy failure is recoverable; a
non-recoverable failure of an attempted strategy aborts Hybrid immediately,
even when a strategy later in the order would succeed, while recoverable
failures do cause the next strategy to be tried. -/
theorem c4_hybrid_recoverable_fallback :
    (∀ (r : SemverXResolver) (id : String),
      r.resolve id (some .Hybrid) = r.resolve_hybrid id) ∧
    (∀ (r : SemverXResolver) (id : String),
      (∀ s : ResolutionStrategy, s ≠ .Hybrid →
        ∀ e, r.resolveSimple id s = .error e → e.can_recover = true) →
      (∃ s : ResolutionStrategy, s ≠ .Hybrid ∧ (r.resolveSimple id s).isOk = true) →
      (r.resolve_hybrid id).isOk = true) :=
  ⟨fun _ _ => rfl, resolve_hybrid_ok_of⟩

/-- Witness for C4: on the single-node graph all three simple strategies
succeed, so the recoverability hypothesis is vacuous and Hybrid succeeds. -/
theorem c4_witness :
    (singleNodeResolver.resolveSimple "a" .Hamiltonian).isOk = true ∧
    (singleNodeResolver.resolve_hybrid "a").isOk = true := by
  have hham : (singleNodeResolver.resolveSimple "a" .Hamiltonian).isOk = true := by decide
  refine ⟨hham, c4_hybrid_recoverable_fallback.2 singleNodeResolver "a" ?_
    ⟨.Hamiltonian, by simp, hham⟩⟩
  intro s hne e he
  have hok : (singleNodeResolver.resolveSimple "a" s).isOk = true := by
    cases s
    · decide
    · decide
    · decide
    · exact absurd rfl hne
  rw [he] at hok
  simp [Except.isOk, Except.toBool] at hok

/-- C5: when resolve is called without an explicit strategy, the chosen
strategy is exactly the step function of the current stress value at entry:
determine_strategy_from_stress coincides pointwise with the step function
the specification describes, and resolve with an absent strategy dispatches
through it. -/
theorem c5_default_strategy_is_stress_step_function :
    (∀ r : SemverXResolver,
      r.determine_strategy_from_stress
        = specStressStepStrategy r.graph.stress_monitor.current_stress) ∧
    (∀ (r : SemverXResolver) (id : String),
      r.resolve id none
        = r.resolveWith id (specStressStepStrategy r.graph.stress_monitor.current_stress)) := by
  have h1 : ∀ q : ℚ,
      (if q < 3 then ResolutionStrategy.Hamiltonian
       else if q < 6 then .AStar
       else if q < 9 then .Eulerian
       else .Hybrid) = specStressStepStrategy q := by
    intro q
    unfold specStressStepStrategy
    split_ifs <;> first | rfl | (exfalso; simp_all)
  have hdet : ∀ r : SemverXResolver,
      r.determine_strategy_from_stress
        = specStressStepStrategy r.graph.stress_monitor.current_stress := by
    intro r
    unfold SemverXResolver.determine_strategy_from_stress
    exact h1 _
  refine ⟨hdet, fun r id => ?_⟩
  show r.resolveWith id ((none : Option ResolutionStrategy).getD _) = _
  rw [Option.getD_none, hdet]

/-- C6: the stress monitor of the resolver holds at most 100 samples,
evicting the oldest exactly when a sample is added at capacity, and its
current value is the arithmetic mean of the held samples (zero when empty,
which the division by a zero length also renders), so adding n at most 100
samples to a fresh monitor yields their mean. -/
theorem c6_stress_monitor_bounded_fifo_mean :
    (∀ (m : StressMonitor) (x : ℚ), m.max_samples = 100 → m.samples.length ≤ 100 →
      (m.add_sample x).samples.length ≤ 100 ∧
      (m.samples.length = 100 → (m.add_sample x).samples = m.samples.tail ++ [x])) ∧
    (∀ xs : List ℚ, xs.length ≤ 100 →
      (xs.foldl StressMonitor.add_sample StressMonitor.new).current_stress
        = xs.sum / (xs.length : ℚ)) := by
  constructor
  · intro m x hmax hlen
    constructor
    · unfold StressMonitor.add_sample
      dsimp only
      split
      · rename_i hfull
        rw [hmax] at hfull
        simp [List.length_tail]
        omega
      · rename_i hnot
        rw [hmax] at hnot
        simp
        omega
    · intro h100
      unfold StressMonitor.add_sample
      rw [if_pos (by rw [hmax, h100])]
  · intro xs hlen
    have hfold := monitor_fold_append xs StressMonitor.new (by simpa [StressMonitor.new])
    unfold StressMonitor.current_stress
    rw [hfold]
    rcases xs with _ | ⟨y, ys⟩
    · simp [StressMonitor.new]
    · simp [StressMonitor.new]

/-- Witness for C6: adding the three samples 1, 2, 3 to a fresh monitor
yields their arithmetic mean, matching the test in resolver.rs. -/
theorem c6_witness :
    ([1, 2, 3] : List ℚ).length ≤ 100 ∧
    (([1, 2, 3] : List ℚ).foldl StressMonitor.add_sample StressMonitor.new).current_stress
      = ([1, 2, 3] : List ℚ).sum / (([1, 2, 3] : List ℚ).length : ℚ) :=
  ⟨by decide, c6_stress_monitor_bounded_fifo_mean.2 [1, 2, 3] (by decide)⟩

/-- C7 counterexample: the claim states that every parsing error, including
the unknown-environment one, carries stress_level 3; but parse applied to
1.2.3.x returns the unknown-environment parsing error with stress_level 2
(and can_recover true), and 2 is not 3. -/
theorem c7_counterexample_env_error_stress_two :
    SemverX.parse "1.2.3.x" = .error c7EnvErr ∧ c7EnvErr.stress_level ≠ 3 := by
  constructor
  · decide
  · decide

/-- C7 amended: every error produced by version parsing is parsing-kind and
falls into exactly one of two shapes, told apart by its context tag: the
structural and integer-conversion failures of parse (contexts SemverX::parse
and its major, minor, patch refinements) carry stress_level 3 with
can_recover false, while the unknown-environment and unknown-classifier
token errors carry stress_level 2 with can_recover true. -/
theorem c7_parse_error_stress_levels :
    (∀ (s : String) (e : BubblingError), SemverX.parse_environment s = .error e →
      e.stress_level = 2 ∧ e.can_recover = true ∧
      e.context = ["SemverX::parse_environment"] ∧ ∃ m, e.source = .ParsingError m) ∧
    (∀ (s : String) (e : BubblingError), SemverX.parse_classifier s = .error e →
      e.stress_level = 2 ∧ e.can_recover = true ∧
      e.context = ["SemverX::parse_classifier"] ∧ ∃ m, e.source = .ParsingError m) ∧
    (∀ (s : String) (e : BubblingError), SemverX.parse s = .error e →
      (∃ m, e.source = .ParsingError m) ∧
      ((e.stress_level = 3 ∧ e.can_recover = false ∧
          (e.context = ["SemverX::parse"] ∨ e.context = ["SemverX::parse::major"] ∨
           e.context = ["SemverX::parse::minor"] ∨ e.context = ["SemverX::parse::patch"])) ∨
       (e.stress_level = 2 ∧ e.can_recover = true ∧
          (e.context = ["SemverX::parse_environment"] ∨
           e.context = ["SemverX::parse_classifier"])))) :=
  ⟨env_error_shape, classifier_error_shape, parse_error_stress⟩

/-- Witness for C7: the two-segment input 1.2 produces the structural format
error, which the theorem places in the stress-3 non-recoverable shape, and
the unknown environment token x produces the stress-2 recoverable shape. -/
theorem c7_witness :
    (SemverX.parse "1.2" = .error c7FormatErr ∧
      (∃ m, c7FormatErr.source = .ParsingError m) ∧
      ((c7FormatErr.stress_level = 3 ∧ c7FormatErr.can_recover = false ∧
          (c7FormatErr.context = ["SemverX::parse"] ∨
           c7FormatErr.context = ["SemverX::parse::major"] ∨
           c7FormatErr.context = ["SemverX::parse::minor"] ∨
           c7FormatErr.context = ["SemverX::parse::patch"])) ∨
       (c7FormatErr.stress_level = 2 ∧ c7FormatErr.can_recover = true ∧
          (c7FormatErr.context = ["SemverX::parse_environment"] ∨
           c7FormatErr.context = ["SemverX::parse_classifier"])))) ∧
    (SemverX.parse_environment "x" = .error c7EnvErr ∧
      c7EnvErr.stress_level = 2 ∧ c7EnvErr.can_recover = true ∧
      c7EnvErr.context = ["SemverX::parse_environment"] ∧
      ∃ m, c7EnvErr.source = .ParsingError m) :=
  ⟨⟨by decide, c7_parse_error_stress_levels.2.2 "1.2" c7FormatErr (by decide)⟩,
   ⟨by decide, c7_parse_error_stress_levels.1 "x" c7EnvErr (by decide)⟩⟩

/-- C8: on versions without prerelease the comparison is total and
antisymmetric, always one of -1, 0, +1 with compare a b equal to the
negation of compare b a; and a version with the same base triple and no
prerelease compares as +1 against the one carrying a prerelease. -/
theorem c8_compare_total_antisymmetric_prerelease :
    (∀ a b : SemverX, a.prerelease = none → b.prerelease = none →
      (SemverX.compare a b = -1 ∨ SemverX.compare a b = 0 ∨ SemverX.compare a b = 1) ∧
      SemverX.compare a b = -SemverX.compare b a) ∧
    (∀ a b : SemverX, a.major = b.major → a.minor = b.minor → a.patch = b.patch →
      a.prerelease = none → ∀ p : String, b.prerelease = some p →
      SemverX.compare a b = 1) := by
  constructor
  · intro a b ha hb
    unfold SemverX.compare cmpNat
    rw [ha, hb]
    dsimp only
    constructor
    · split_ifs <;> simp
    · split_ifs <;> omega
  · intro a b h1 h2 h3 ha p hb
    unfold SemverX.compare
    rw [ha, hb, h1, h2, h3]
    simp

/-- Witness for C8: 1.2.3 against 1.2.4 (no prereleases) and 1.2.3 against
1.2.3-alpha instantiate both parts at concrete versions. -/
theorem c8_witness :
    ((mkVer 1 2 3).prerelease = none ∧ (mkVer 1 2 4).prerelease = none ∧
      ((SemverX.compare (mkVer 1 2 3) (mkVer 1 2 4) = -1 ∨
        SemverX.compare (mkVer 1 2 3) (mkVer 1 2 4) = 0 ∨
        SemverX.compare (mkVer 1 2 3) (mkVer 1 2 4) = 1) ∧
        SemverX.compare (mkVer 1 2 3) (mkVer 1 2 4)
          = -SemverX.compare (mkVer 1 2 4) (mkVer 1 2 3))) ∧
    SemverX.compare (mkVer 1 2 3) { mkVer 1 2 3 with prerelease := some "alpha" } = 1 :=
  ⟨⟨rfl, rfl, c8_compare_total_antisymmetric_prerelease.1 _ _ rfl rfl⟩,
    c8_compare_total_antisymmetric_prerelease.2 _ _ rfl rfl rfl rfl "alpha" rfl⟩

/-- C9: satisfies on the empty range string returns Ok true for every
version: the range splits into one empty comparator set, whose conjunction
over no comparators is vacuously true. -/
theorem c9_satisfies_empty_range_accepts_all (v : SemverX) :
    v.satisfies "" = .ok true := rfl

/-- C10: bubble_up appends exactly the given context string at the end of
the context sequence and multiplies the stress level by exactly 1.5, leaving
the error kind with its message and the can_recover flag unchanged. -/
theorem c10_bubble_up_frame (e : BubblingError) (c : String) :
    (e.bubble_up c).context = e.context ++ [c] ∧
    (e.bubble_up c).stress_level = e.stress_level * (3 / 2) ∧
    (e.bubble_up c).source = e.source ∧
    (e.bubble_up c).can_recover = e.can_recover :=
  ⟨rfl, rfl, rfl, rfl⟩
